import Mathlib

/-!
Verification development for the mcp-mysql gateway
(`src/cache.ts`, `src/auth.ts`, `src/index.ts`, `src/mysql-client.ts`).

The TypeScript source is shallowly embedded: JavaScript strings become
`String`, `Map` objects become insertion-ordered association lists,
`Date.now()` timestamps become explicit `Int` arguments, and the
nondeterministic session-id draw (`Math.random().toString(36).substring(7)`)
becomes an explicit argument.  `crypto.createHash('md5')...digest('hex')`
is embedded as a full executable MD5 over UTF-8 bytes followed by
lowercase hex encoding.
-/

namespace MCPMySQL

/-! ## JavaScript string primitives used by the source -/

/-- `s.trim()`: drop whitespace from both ends. -/
def jsTrim (s : String) : String :=
  ⟨((s.data.dropWhile Char.isWhitespace).reverse.dropWhile Char.isWhitespace).reverse⟩

/-- `s.toLowerCase()` (ASCII case folding; all inputs in this code base are ASCII). -/
def jsToLower (s : String) : String :=
  ⟨s.data.map Char.toLower⟩

/-- `s.startsWith(p)`. -/
def jsStartsWith (s p : String) : Bool :=
  List.isPrefixOf p.data s.data

/-- Substring occurrence: `p` occurs contiguously in `l`. -/
def listContainsSub (p : List Char) : List Char → Bool
  | [] => p.isEmpty
  | c :: rest => List.isPrefixOf p (c :: rest) || listContainsSub p rest

/-- `s.includes(p)`: substring test. -/
def jsIncludes (s p : String) : Bool :=
  listContainsSub p.data s.data

/-! ## MD5 (embedding of node's `crypto.createHash('md5')`)

Reference: RFC 1321.  All 32-bit arithmetic is `Nat` with explicit
`% 4294967296`. -/

/-- UTF-8 encoding of one character. -/
def utf8Bytes (c : Char) : List Nat :=
  let n := c.toNat
  if n < 128 then [n]
  else if n < 2048 then [192 + n / 64, 128 + n % 64]
  else if n < 65536 then [224 + n / 4096, 128 + (n / 64) % 64, 128 + n % 64]
  else [240 + n / 262144, 128 + (n / 4096) % 64, 128 + (n / 64) % 64, 128 + n % 64]

/-- UTF-8 bytes of a string (what `hash.update(string)` consumes). -/
def strBytes (s : String) : List Nat :=
  s.data.foldr (fun c acc => utf8Bytes c ++ acc) []

/-- 32-bit left rotation. -/
def rotl32 (x s : Nat) : Nat :=
  ((x <<< s) ||| (x >>> (32 - s))) % 4294967296

/-- The 64 per-round shift amounts of MD5. -/
def md5S : List Nat :=
  [7, 12, 17, 22, 7, 12, 17, 22, 7, 12, 17, 22, 7, 12, 17, 22,
   5, 9, 14, 20, 5, 9, 14, 20, 5, 9, 14, 20, 5, 9, 14, 20,
   4, 11, 16, 23, 4, 11, 16, 23, 4, 11, 16, 23, 4, 11, 16, 23,
   6, 10, 15, 21, 6, 10, 15, 21, 6, 10, 15, 21, 6, 10, 15, 21]

/-- The 64 sine-derived constants of MD5. -/
def md5K : List Nat :=
  [0xd76aa478, 0xe8c7b756, 0x242070db, 0xc1bdceee,
   0xf57c0faf, 0x4787c62a, 0xa8304613, 0xfd469501,
   0x698098d8, 0x8b44f7af, 0xffff5bb1, 0x895cd7be,
   0x6b901122, 0xfd987193, 0xa679438e, 0x49b40821,
   0xf61e2562, 0xc040b340, 0x265e5a51, 0xe9b6c7aa,
   0xd62f105d, 0x02441453, 0xd8a1e681, 0xe7d3fbc8,
   0x21e1cde6, 0xc33707d6, 0xf4d50d87, 0x455a14ed,
   0xa9e3e905, 0xfcefa3f8, 0x676f02d9, 0x8d2a4c8a,
   0xfffa3942, 0x8771f681, 0x6d9d6122, 0xfde5380c,
   0xa4beea44, 0x4bdecfa9, 0xf6bb4b60, 0xbebfbc70,
   0x289b7ec6, 0xeaa127fa, 0xd4ef3085, 0x04881d05,
   0xd9d4d039, 0xe6db99e5, 0x1fa27cf8, 0xc4ac5665,
   0xf4292244, 0x432aff97, 0xab9423a7, 0xfc93a039,
   0x655b59c3, 0x8f0ccc92, 0xffeff47d, 0x85845dd1,
   0x6fa87e4f, 0xfe2ce6e0, 0xa3014314, 0x4e0811a1,
   0xf7537e82, 0xbd3af235, 0x2ad7d2bb, 0xeb86d391]

/-- Round function of MD5: the boolean mixing function of round `i / 16`. -/
def md5F (i b c d : Nat) : Nat :=
  if i < 16 then (b &&& c) ||| ((b ^^^ 4294967295) &&& d)
  else if i < 32 then (d &&& b) ||| ((d ^^^ 4294967295) &&& c)
  else if i < 48 then b ^^^ c ^^^ d
  else c ^^^ (b ||| (d ^^^ 4294967295))

/-- Message-word index used at step `i`. -/
def md5G (i : Nat) : Nat :=
  if i < 16 then i
  else if i < 32 then (5 * i + 1) % 16
  else if i < 48 then (3 * i + 5) % 16
  else (7 * i) % 16

/-- Little-endian byte serialization of `x` on `n` bytes. -/
def leBytes (n x : Nat) : List Nat :=
  (List.range n).map (fun i => (x >>> (8 * i)) % 256)

/-- The `j`-th little-endian 32-bit word of the chunk starting at `base`. -/
def md5Word (bytes : List Nat) (base j : Nat) : Nat :=
  bytes.getD (base + 4 * j) 0 + 256 * bytes.getD (base + 4 * j + 1) 0 +
    65536 * bytes.getD (base + 4 * j + 2) 0 + 16777216 * bytes.getD (base + 4 * j + 3) 0

/-- One of the 64 steps of an MD5 chunk computation. -/
def md5Step (bytes : List Nat) (base : Nat) (st : Nat × Nat × Nat × Nat) (i : Nat) :
    Nat × Nat × Nat × Nat :=
  let a := st.1
  let b := st.2.1
  let c := st.2.2.1
  let d := st.2.2.2
  let f := (md5F i b c d + a + md5K.getD i 0 + md5Word bytes base (md5G i)) % 4294967296
  (d, (b + rotl32 f (md5S.getD i 0)) % 4294967296, b, c)

/-- Process the 64-byte chunk starting at offset `base`. -/
def md5Chunk (bytes : List Nat) (base : Nat) (st : Nat × Nat × Nat × Nat) :
    Nat × Nat × Nat × Nat :=
  let r := (List.range 64).foldl (md5Step bytes base) st
  ((st.1 + r.1) % 4294967296, (st.2.1 + r.2.1) % 4294967296,
   (st.2.2.1 + r.2.2.1) % 4294967296, (st.2.2.2 + r.2.2.2) % 4294967296)

/-- MD5 padding: `0x80`, zeros to 56 mod 64, then the 64-bit little-endian bit length. -/
def md5Pad (bytes : List Nat) : List Nat :=
  bytes ++ [128] ++ List.replicate ((119 - bytes.length % 64) % 64) 0 ++
    leBytes 8 ((8 * bytes.length) % 18446744073709551616)

/-- The 16-byte MD5 digest of a byte sequence. -/
def md5Bytes (bytes : List Nat) : List Nat :=
  let padded := md5Pad bytes
  let st := (List.range (padded.length / 64)).foldl
    (fun st i => md5Chunk padded (64 * i) st)
    (0x67452301, 0xefcdab89, 0x98badcfe, 0x10325476)
  leBytes 4 st.1 ++ leBytes 4 st.2.1 ++ leBytes 4 st.2.2.1 ++ leBytes 4 st.2.2.2

/-- The sixteen lowercase hex digits. -/
def hexDigits : List Char :=
  "0123456789abcdef".data

/-- Hex digit for a nibble. -/
def hexDigitChar (n : Nat) : Char :=
  hexDigits.getD (n % 16) '0'

/-- Lowercase hex rendering of a byte list (`digest('hex')`). -/
def bytesToHex (bytes : List Nat) : String :=
  ⟨bytes.foldr (fun b acc => hexDigitChar (b / 16) :: hexDigitChar b :: acc) []⟩

/-- `crypto.createHash('md5').update(s).digest('hex')`. -/
def md5Hex (s : String) : String :=
  bytesToHex (md5Bytes (strBytes s))

/-! ## JSON serialization of parameter arrays

`cache.ts` computes `JSON.stringify(params)`; at every call site
(`index.ts`) `params` is `string[] | undefined`, so the embedding covers
`JSON.stringify` on arrays of strings. -/

/-- The control characters with a two-character JSON escape, paired with
their escape letter. -/
def jsonShortEscapes : List (Char × Char) :=
  [('"', '"'), ('\\', '\\'), ('\x08', 'b'), ('\x09', 't'),
   ('\x0a', 'n'), ('\x0c', 'f'), ('\x0d', 'r')]

/-- JSON escape of one character inside a string literal: the short
escapes above, `\u00XX` for the remaining control characters, and the
character itself otherwise. -/
def jsonEscapeChar (c : Char) : List Char :=
  match jsonShortEscapes.find? (fun pc => pc.1 = c) with
  | some pc => '\\' :: [pc.2]
  | none =>
    if c.toNat < 32 then
      '\\' :: 'u' :: '0' :: '0' :: hexDigitChar (c.toNat / 16) :: [hexDigitChar c.toNat]
    else [c]

/-- `JSON.stringify` of a single string. -/
def jsonStringifyStr (s : String) : String :=
  ⟨'"' :: s.data.foldr (fun c acc => jsonEscapeChar c ++ acc) ['"']⟩

/-- `JSON.stringify` of an array of strings. -/
def jsonStringify (params : List String) : String :=
  "[" ++ String.intercalate "," (params.map jsonStringifyStr) ++ "]"

/-! ## `cache.ts` — `QueryCache`

A JavaScript `Map` is an insertion-ordered association list with unique
keys: `set` on a fresh key appends, `set` on a present key updates in
place, iteration follows insertion order. -/

/-- Association-list lookup (`Map.get`). -/
def assocGet {β : Type} (k : String) : List (String × β) → Option β
  | [] => none
  | (k', v) :: rest => if k' = k then some v else assocGet k rest

/-- Association-list update (`Map.set`): in-place update of a present key,
append of a fresh key. -/
def assocSet {β : Type} (k : String) (v : β) : List (String × β) → List (String × β)
  | [] => [(k, v)]
  | (k', v') :: rest => if k' = k then (k, v) :: rest else (k', v') :: assocSet k v rest

/-- Association-list removal (`Map.delete`). -/
def assocDelete {β : Type} (k : String) : List (String × β) → List (String × β)
  | [] => []
  | (k', v') :: rest => if k' = k then rest else (k', v') :: assocDelete k rest

/-- `CacheEntry` of `cache.ts`: payload, creation timestamp, time to live
(milliseconds).  Timestamps are `Date.now()` values, passed explicitly. -/
structure CacheEntry (α : Type) where
  data : α
  timestamp : Int
  ttl : Int
  deriving DecidableEq, Repr

/-- `QueryCache` of `cache.ts`. -/
structure QueryCache (α : Type) where
  entries : List (String × CacheEntry α)
  maxSize : Nat
  defaultTTL : Int
  deriving DecidableEq, Repr

/-- `new QueryCache(maxSize = 1000, defaultTTL = 300000)`. -/
def QueryCache.new (α : Type) (maxSize : Nat := 1000) (defaultTTL : Int := 300000) :
    QueryCache α :=
  ⟨[], maxSize, defaultTTL⟩

namespace QueryCache

variable {α : Type}

/-- `generateKey`: md5 hex digest of `sql + (params ? JSON.stringify(params) : '')`.
Note `JSON.stringify([])` is reached for the (truthy) empty array. -/
def generateKey (sql : String) (params : Option (List String)) : String :=
  md5Hex (sql ++ (match params with | some p => jsonStringify p | none => ""))

/-- The pre-hash derivation input of a cache key. -/
def derivationInput (sql : String) (params : Option (List String)) : String :=
  sql ++ (match params with | some p => jsonStringify p | none => "")

/-- `isExpired`: `Date.now() - entry.timestamp > entry.ttl`. -/
def isExpired (now : Int) (e : CacheEntry α) : Bool :=
  now - e.timestamp > e.ttl

/-- `cleanExpired`: drop every expired entry. -/
def cleanExpired (now : Int) (c : QueryCache α) : QueryCache α :=
  { c with entries := c.entries.filter (fun kv => ! isExpired now kv.2) }

/-- `evictOldest`: scan in insertion order for the entry with the smallest
timestamp strictly below `Date.now()`; delete it if the scan found one
(the sentinel `oldestKey = ''` is JS-falsy). -/
def evictOldest (now : Int) (c : QueryCache α) : QueryCache α :=
  if c.entries.length = 0 then c
  else
    let scan := c.entries.foldl
      (fun (acc : String × Int) kv =>
        if kv.2.timestamp < acc.2 then (kv.1, kv.2.timestamp) else acc)
      ("", now)
    if scan.1 ≠ "" then { c with entries := assocDelete scan.1 c.entries } else c

/-- `get`: lookup by generated key; a present expired entry is deleted and
reported as a miss.  Returns the JS return value and the updated cache. -/
def get (sql : String) (params : Option (List String)) (now : Int) (c : QueryCache α) :
    Option α × QueryCache α :=
  let key := generateKey sql params
  match assocGet key c.entries with
  | none => (none, c)
  | some e =>
    if isExpired now e then (none, { c with entries := assocDelete key c.entries })
    else (some e.data, c)

/-- `set`: evict when at capacity and the key is fresh, then insert with
`timestamp = Date.now()` and `ttl = ttl || defaultTTL` (so a `ttl` of `0`
falls back to the default, as `0` is JS-falsy). -/
def set (sql : String) (data : α) (params : Option (List String)) (ttl : Option Int)
    (now : Int) (c : QueryCache α) : QueryCache α :=
  let key := generateKey sql params
  let c1 := if c.entries.length ≥ c.maxSize ∧ (assocGet key c.entries).isNone then
    evictOldest now c else c
  let entry : CacheEntry α :=
    ⟨data, now, match ttl with
      | some t => if t = 0 then c1.defaultTTL else t
      | none => c1.defaultTTL⟩
  { c1 with entries := assocSet key entry c1.entries }

/-- `invalidate`: no pattern or the (JS-falsy) empty pattern clears the
whole cache; otherwise drop every entry whose *key* — the md5 hex digest —
contains the pattern as a substring. -/
def invalidate (pattern : Option String) (c : QueryCache α) : QueryCache α :=
  match pattern with
  | none => { c with entries := [] }
  | some p =>
    if p = "" then { c with entries := [] }
    else { c with entries := c.entries.filter (fun kv => ! jsIncludes kv.1 p) }

/-- `invalidateTable`: `invalidate(tableName.toLowerCase())`. -/
def invalidateTable (tableName : String) (c : QueryCache α) : QueryCache α :=
  invalidate (some (jsToLower tableName)) c

/-- `getStats().size`. -/
def size (c : QueryCache α) : Nat :=
  c.entries.length

/-- `shouldCache`: the trimmed, case-folded query starts with
select / show / describe / desc. -/
def shouldCache (sql : String) : Bool :=
  let trimmedSql := jsToLower (jsTrim sql)
  jsStartsWith trimmedSql "select" || jsStartsWith trimmedSql "show" ||
    jsStartsWith trimmedSql "describe" || jsStartsWith trimmedSql "desc"

end QueryCache

/-! ## `auth.ts` — roles, permissions, `AuthManager` -/

/-- `UserRole` of `auth.ts`. -/
inductive UserRole where
  | ADMIN
  | READ_WRITE
  | READ_ONLY
  deriving DecidableEq, Repr

/-- `Permission` of `auth.ts`. -/
inductive Permission where
  | SELECT
  | INSERT
  | UPDATE
  | DELETE
  | SHOW
  | DESCRIBE
  deriving DecidableEq, Repr

/-- `User` of `auth.ts`. -/
structure User where
  username : String
  password : String
  role : UserRole
  deriving DecidableEq, Repr

/-- The user registry built by `initializeDefaultUsers` with no environment
overrides: three `users.set` calls in order admin, readwrite, readonly. -/
def defaultUsers : List (String × User) :=
  assocSet "readonly" ⟨"readonly", "ro123", UserRole.READ_ONLY⟩
    (assocSet "readwrite" ⟨"readwrite", "rw123", UserRole.READ_WRITE⟩
      (assocSet "admin" ⟨"admin", "admin123", UserRole.ADMIN⟩ []))

/-- The session map: token → username. -/
def Sessions : Type := List (String × String)

/-- `authenticate`: registry lookup by exact username, exact password
comparison; on success record the freshly drawn session id (the
`Math.random().toString(36).substring(7)` draw is the explicit `sid`
argument) and return it; on failure return `null` and leave the session
map untouched. -/
def authenticate (sid : String) (username password : String)
    (users : List (String × User)) (sessions : List (String × String)) :
    Option String × List (String × String) :=
  match assocGet username users with
  | none => (none, sessions)
  | some user =>
    if user.password ≠ password then (none, sessions)
    else (some sid, assocSet sid username sessions)

/-- `hasPermission` of `auth.ts`: admin everything, read-write everything
but delete, read-only the three read classes. -/
def hasPermission (user : User) (permission : Permission) : Bool :=
  match user.role with
  | UserRole.ADMIN => true
  | UserRole.READ_WRITE =>
    [Permission.SELECT, Permission.INSERT, Permission.UPDATE,
      Permission.SHOW, Permission.DESCRIBE].contains permission
  | UserRole.READ_ONLY =>
    [Permission.SELECT, Permission.SHOW, Permission.DESCRIBE].contains permission

/-- `parseQueryPermission` of `auth.ts`: trim, case-fold, then test the
keyword *prefixes* in source order, defaulting to `SELECT`. -/
def parseQueryPermission (sql : String) : Permission :=
  let trimmedSql := jsToLower (jsTrim sql)
  if jsStartsWith trimmedSql "select" then Permission.SELECT
  else if jsStartsWith trimmedSql "insert" then Permission.INSERT
  else if jsStartsWith trimmedSql "update" then Permission.UPDATE
  else if jsStartsWith trimmedSql "delete" then Permission.DELETE
  else if jsStartsWith trimmedSql "show" then Permission.SHOW
  else if jsStartsWith trimmedSql "describe" || jsStartsWith trimmedSql "desc" then
    Permission.DESCRIBE
  else Permission.SELECT

/-! ## `index.ts` — handler effects relevant to the claims -/

/-- The `mysql_auth` handler's caller-visible outcome: a failed
`authenticate` becomes the one generic `McpError` message, a success
reports the session id. -/
def mysqlAuthResponse (r : Option String) : Except String String :=
  match r with
  | none => Except.error "Invalid username or password"
  | some sid => Except.ok ("Authentication successful. Session ID: " ++ sid)

/-- Effect of the `mysql_query` handler on the cache (after authorization):
for cacheable queries, a hit short-circuits and a miss executes then
stores the rows; for everything else the cache is not touched.  `result`
is the row set the data store returns; a cached row array is JS-truthy,
so a cache hit short-circuits. -/
def mysqlQueryCacheStep (query : String) (params : Option (List String)) (result : α)
    (now : Int) (c : QueryCache α) : QueryCache α :=
  if QueryCache.shouldCache query then
    match QueryCache.get query params now c with
    | (some _, c1) => c1
    | (none, c1) => QueryCache.set query result params none now c1
  else c

/-- Effect of the `mysql_insert` handler on the cache: after a successful
`insertData`, `queryCache.invalidateTable(table)`. -/
def mysqlInsertCacheStep (table : String) (c : QueryCache α) : QueryCache α :=
  QueryCache.invalidateTable table c

/-- Effect of the `mysql_update` handler on the cache. -/
def mysqlUpdateCacheStep (table : String) (c : QueryCache α) : QueryCache α :=
  QueryCache.invalidateTable table c

/-- Effect of the `mysql_delete` handler on the cache. -/
def mysqlDeleteCacheStep (table : String) (c : QueryCache α) : QueryCache α :=
  QueryCache.invalidateTable table c

/-- The live `MySQLClient` handle as far as connection state is concerned:
`connected = true` models `connection !== null`. -/
structure MySQLClient where
  connected : Bool
  deriving DecidableEq, Repr

/-- `MySQLClient.disconnect`: `connection.end(); connection = null`. -/
def MySQLClient.disconnect (_ : MySQLClient) : MySQLClient :=
  ⟨false⟩

/-- Orchestrator state of `index.ts`: the module-level `mysqlClient`
handle and the query cache. -/
structure OrchState (α : Type) where
  mysqlClient : Option MySQLClient
  cache : QueryCache α
  deriving DecidableEq, Repr

/-- The `configWatcher.onChange` handler of `index.ts`, with the outcome
of `mysql.createConnection` under the new config as the explicit
`connectSucceeds` argument: first disconnect the current client if any,
then `initializeMySQLClient` (assign a fresh client and connect; a
connect failure throws into the catch block), and clear the cache only
after a successful reconnect. -/
def onConfigChange (connectSucceeds : Bool) (s : OrchState α) : OrchState α :=
  let s1 : OrchState α := { s with mysqlClient := s.mysqlClient.map MySQLClient.disconnect }
  if connectSucceeds then
    { s1 with
      mysqlClient := some ⟨true⟩,
      cache := QueryCache.invalidate none s1.cache }
  else
    { s1 with mysqlClient := some ⟨false⟩ }

/-- A live, usable connection exists. -/
def OrchState.liveConnected (s : OrchState α) : Bool :=
  match s.mysqlClient with
  | some client => client.connected
  | none => false

/-! ## Spec-side definitions

These follow the wording of the natural-language specification and are
compared with the source embeddings above. -/

/-- The role/permission table of specification §4.1, written out pair by
pair: Admin allows all six classes, ReadWrite all but Delete, ReadOnly
only the three read classes; any pair not covered is denied. -/
def allowsSpecTable : UserRole → Permission → Bool
  | UserRole.ADMIN, _ => true
  | UserRole.READ_WRITE, Permission.SELECT => true
  | UserRole.READ_WRITE, Permission.INSERT => true
  | UserRole.READ_WRITE, Permission.UPDATE => true
  | UserRole.READ_WRITE, Permission.DELETE => false
  | UserRole.READ_WRITE, Permission.SHOW => true
  | UserRole.READ_WRITE, Permission.DESCRIBE => true
  | UserRole.READ_ONLY, Permission.SELECT => true
  | UserRole.READ_ONLY, Permission.SHOW => true
  | UserRole.READ_ONLY, Permission.DESCRIBE => true
  | UserRole.READ_ONLY, _ => false

/-- The leading keyword of a query as the claim reads it: the first
whitespace-delimited token of the trimmed, case-folded text. -/
def leadingToken (s : String) : String :=
  ⟨(jsToLower (jsTrim s)).data.takeWhile (fun c => ! c.isWhitespace)⟩

/-- Token-exact classification as the claim words it: map the leading
token through the six keywords (with `desc` as an alias of `describe`),
anything else to `SELECT`. -/
def classifyTokenSpec (s : String) : Permission :=
  let t := leadingToken s
  if t = "select" then Permission.SELECT
  else if t = "insert" then Permission.INSERT
  else if t = "update" then Permission.UPDATE
  else if t = "delete" then Permission.DELETE
  else if t = "show" then Permission.SHOW
  else if t = "describe" ∨ t = "desc" then Permission.DESCRIBE
  else Permission.SELECT

/-- Keyword/permission pairs in the order the source tests them. -/
def prefixKeywordTable : List (String × Permission) :=
  [("select", Permission.SELECT), ("insert", Permission.INSERT),
   ("update", Permission.UPDATE), ("delete", Permission.DELETE),
   ("show", Permission.SHOW), ("describe", Permission.DESCRIBE),
   ("desc", Permission.DESCRIBE)]

/-- First table entry whose keyword is a prefix of `t`. -/
def firstMatchingKeyword (t : String) : List (String × Permission) → Option Permission
  | [] => none
  | (k, perm) :: rest =>
    if jsStartsWith t k then some perm else firstMatchingKeyword t rest

/-- Prefix-based classification as the amended claim words it: the first
keyword in the table that is a string prefix of the trimmed, case-folded
query wins; with no match the class is `SELECT`. -/
def classifyPrefixSpec (s : String) : Permission :=
  (firstMatchingKeyword (jsToLower (jsTrim s)) prefixKeywordTable).getD Permission.SELECT

/-! ## Helper lemmas -/

theorem assocGet_cons_self {β : Type} (k : String) (v : β) (rest : List (String × β)) :
    assocGet k ((k, v) :: rest) = some v := by
  simp [assocGet]

theorem assocGet_assocSet_self {β : Type} (k : String) (v : β) (l : List (String × β)) :
    assocGet k (assocSet k v l) = some v := by
  induction l with
  | nil => simp [assocGet, assocSet]
  | cons kv rest ih =>
    by_cases h : kv.1 = k
    · simp [assocSet, assocGet, h]
    · simpa [assocSet, assocGet, h] using ih

theorem hexDigitChar_mem (n : Nat) : hexDigitChar n ∈ hexDigits := by
  have h : n % 16 < 16 := Nat.mod_lt _ (by norm_num)
  exact (by decide : ∀ m, m < 16 → hexDigits.getD m '0' ∈ hexDigits) _ h

theorem bytesToHex_chars (bs : List Nat) :
    ∀ ch ∈ (bytesToHex bs).data, ch ∈ hexDigits := by
  induction bs with
  | nil => simp [bytesToHex]
  | cons b rest ih =>
    intro ch hch
    have : ch = hexDigitChar (b / 16) ∨ ch = hexDigitChar b ∨ ch ∈ (bytesToHex rest).data := by
      simpa [bytesToHex] using hch
    rcases this with h | h | h
    · exact h ▸ hexDigitChar_mem _
    · exact h ▸ hexDigitChar_mem _
    · exact ih ch h

theorem generateKey_chars (q : String) (p : Option (List String)) :
    ∀ ch ∈ (QueryCache.generateKey q p).data, ch ∈ hexDigits :=
  bytesToHex_chars _

theorem listContainsSub_subset (p l : List Char) (h : listContainsSub p l = true) :
    ∀ a ∈ p, a ∈ l := by
  induction l with
  | nil =>
    intro a ha
    simp [listContainsSub] at h
    simp [h] at ha
  | cons c rest ih =>
    intro a ha
    rcases (by simpa [listContainsSub, Bool.or_eq_true] using h) with h1 | h1
    · have hp : p <+: c :: rest := by simpa using h1
      exact hp.subset ha
    · exact List.mem_cons_of_mem c (ih h1 a ha)

theorem jsIncludes_eq_false_of_nonhex (s p : String)
    (hs : ∀ ch ∈ s.data, ch ∈ hexDigits) (c : Char) (hcp : c ∈ p.data)
    (hc : c ∉ hexDigits) : jsIncludes s p = false := by
  cases h : jsIncludes s p
  · rfl
  · exact absurd (hs c (listContainsSub_subset p.data s.data h c hcp)) hc

/-- Cache invalidation with a pattern that contains a character outside
the hex alphabet keeps every entry whose key is a hex digest. -/
theorem invalidate_id_of_nonhex {α : Type} (c : QueryCache α) (p : String) (hp : p ≠ "")
    (hkeys : ∀ kv ∈ c.entries, ∀ ch ∈ kv.1.data, ch ∈ hexDigits)
    (cc : Char) (hcp : cc ∈ p.data) (hcc : cc ∉ hexDigits) :
    QueryCache.invalidate (some p) c = c := by
  have hf : c.entries.filter (fun kv => ! jsIncludes kv.1 p) = c.entries := by
    apply List.filter_eq_self.mpr
    intro kv hkv
    simp [jsIncludes_eq_false_of_nonhex kv.1 p (hkeys kv hkv) cc hcp hcc]
  simp [QueryCache.invalidate, hp, hf]

/-- Inserting (with no explicit ttl) into an empty cache of positive
capacity yields the single freshly keyed entry. -/
theorem set_empty_entries {α : Type} (q : String) (p : Option (List String)) (v : α)
    (now : Int) (m : Nat) (d : Int) (hm : 0 < m) :
    (QueryCache.set q v p none now ⟨[], m, d⟩).entries =
      [(QueryCache.generateKey q p, ⟨v, now, d⟩)] := by
  simp [QueryCache.set, assocSet, assocGet, Nat.not_le.mpr hm]

/-! ## Claim C1 — table-scoped invalidation vs hashed keys -/

/-- Cache holding the result of `SELECT * FROM users` (the spec's table
invalidation scenario). -/
def c1State : QueryCache Nat :=
  QueryCache.set "SELECT * FROM users" 42 none none 0 (QueryCache.new Nat)

/-- C1: the claim fails on the code.  `invalidate` substring-matches the
pattern against the *md5 hex key*, whose characters are all hex digits,
so the pattern `users` (which contains `u`) never matches:
`invalidateTable("users")` removes nothing and the previously cached
`SELECT * FROM users` is still a hit, where the claim requires a miss. -/
theorem c1_invalidateTable_leaves_hashed_keys_untouched :
    QueryCache.invalidateTable "users" c1State = c1State ∧
    (QueryCache.get "SELECT * FROM users" none 0
      (QueryCache.invalidateTable "users" c1State)).1 = some 42 := by
  have hent : c1State.entries =
      [(QueryCache.generateKey "SELECT * FROM users" none, ⟨42, 0, 300000⟩)] :=
    set_empty_entries _ _ _ _ _ _ (by norm_num)
  have hlow : jsToLower "users" = "users" := by decide
  have hid : QueryCache.invalidateTable "users" c1State = c1State := by
    unfold QueryCache.invalidateTable
    rw [hlow]
    refine invalidate_id_of_nonhex _ _ (by decide) ?_ 'u' (by decide) (by decide)
    intro kv hkv ch hch
    have h1 : kv = (QueryCache.generateKey "SELECT * FROM users" none,
        (⟨42, 0, 300000⟩ : CacheEntry Nat)) := by
      rw [hent] at hkv
      exact List.mem_singleton.mp hkv
    have h2 : kv.1 = QueryCache.generateKey "SELECT * FROM users" none := by rw [h1]
    rw [h2] at hch
    exact generateKey_chars _ _ ch hch
  refine ⟨hid, ?_⟩
  rw [hid]
  simp [QueryCache.get, hent, assocGet_cons_self, QueryCache.isExpired]

/-! ## Claim C2 — connection swap ordering -/

/-- C2: the claim fails on the code.  The `onChange` handler disconnects
the current client *before* attempting the new connection, so when the
new connect fails the old connection is already closed and no live
connection remains (the handle points at an unconnected client); the
cache, however, is indeed untouched on failure. -/
theorem c2_config_change_disconnects_before_connecting {α : Type} (cache : QueryCache α) :
    onConfigChange false (OrchState.mk (some ⟨true⟩) cache) =
      OrchState.mk (some ⟨false⟩) cache ∧
    (onConfigChange false (OrchState.mk (some ⟨true⟩) cache)).liveConnected = false := by
  exact ⟨rfl, rfl⟩

/-! ## Claim C3 — the role/permission table -/

/-- C3: for every user and permission class, `hasPermission` agrees with
the §4.1 table (`allowsSpecTable`): Admin allows all six, ReadWrite all
but Delete, ReadOnly only Select/Show/Describe. -/
theorem c3_hasPermission_matches_table (u : User) (p : Permission) :
    hasPermission u p = allowsSpecTable u.role p := by
  rcases u with ⟨un, pw, r⟩
  cases r <;> cases p <;> rfl

/-! ## Claim C4 — query classification -/

/-- C4 counterexample: classification is prefix-based, not token-based.
The query `deletes from t` has leading token `deletes`, which is none of
the six keywords, so the claim requires class Select; the code sees the
prefix `delete` and returns Delete. -/
theorem c4_counterexample_prefix_match_beats_token :
    parseQueryPermission "deletes from t" = Permission.DELETE ∧
    leadingToken "deletes from t" = "deletes" ∧
    classifyTokenSpec "deletes from t" = Permission.SELECT := by
  refine ⟨by decide, by decide, by decide⟩

/-- C4 amended: classification trims, case-folds and then tests the
keywords as string *prefixes* in source order (select, insert, update,
delete, show, describe/desc), defaulting to Select — equivalently, it
equals `classifyPrefixSpec`. -/
theorem c4_parseQueryPermission_prefix_based (s : String) :
    parseQueryPermission s = classifyPrefixSpec s := by
  unfold parseQueryPermission classifyPrefixSpec
  simp only [prefixKeywordTable, firstMatchingKeyword]
  split_ifs <;> simp_all [Bool.or_eq_true]

/-! ## Claim C5 — capacity invariant -/

/-- Two distinct keys inserted at the same `Date.now()` millisecond into a
cache of capacity 1. -/
def c5State : QueryCache Nat :=
  QueryCache.set "b" 2 none none 0 (QueryCache.set "a" 1 none none 0 (QueryCache.new Nat 1 300000))

set_option maxRecDepth 200000 in
set_option maxHeartbeats 2000000 in
/-- C5: the claim fails on the code.  `evictOldest` starts its scan at
`oldestTime = Date.now()` and looks for a strictly smaller timestamp, so
when every resident entry carries the current millisecond nothing is
evicted: after inserting a second distinct key at the same timestamp the
size is 2 with `maxSize = 1`, and the oldest entry is still present. -/
theorem c5_capacity_overflow_same_timestamp :
    c5State.maxSize = 1 ∧ c5State.size = 2 ∧
    (QueryCache.get "a" none 0 c5State).1 = some 1 := by
  decide

/-! ## Claim C6 — TTL semantics -/

/-- `evictOldest` never changes the configured default TTL. -/
theorem evictOldest_defaultTTL {α : Type} (now : Int) (c : QueryCache α) :
    (QueryCache.evictOldest now c).defaultTTL = c.defaultTTL := by
  simp only [QueryCache.evictOldest]
  split_ifs <;> rfl

set_option maxRecDepth 200000 in
set_option maxHeartbeats 1000000 in
/-- C6 counterexample: the claim fails at `ttl = 0`.  Because `set` stores
`ttl || defaultTTL` and `0` is JS-falsy, an entry inserted with `ttl = 0`
gets the default TTL of 300000 ms, so at time 1 — strictly after
creation + 0, where the claim requires a miss — the entry is still
returned. -/
theorem c6_counterexample_ttl_zero :
    (QueryCache.get "SELECT 1" none 1
      (QueryCache.set "SELECT 1" (7:Nat) none (some 0) 0 (QueryCache.new Nat))).1 = some 7 := by
  decide

/-- C6 amended: for every *nonzero* `T`, an entry inserted with `ttl = T`
is a hit strictly before creation + T and a miss strictly after; and any
value `get` returns comes from an entry `e` with `now - e.timestamp ≤ e.ttl`,
so no stale entry is ever returned to a caller. -/
theorem c6_ttl_window {α : Type} (c c' : QueryCache α) (q : String)
    (params : Option (List String)) (v w : α) (T t0 now : Int) (e : CacheEntry α)
    (hT : T ≠ 0) (he : assocGet (QueryCache.generateKey q params) c'.entries = some e) :
    (now < t0 + T →
      (QueryCache.get q params now (QueryCache.set q v params (some T) t0 c)).1 = some v) ∧
    (now > t0 + T →
      (QueryCache.get q params now (QueryCache.set q v params (some T) t0 c)).1 = none) ∧
    ((QueryCache.get q params now c').1 = some w → e.data = w ∧ now - e.timestamp ≤ e.ttl) := by
  have hkey : assocGet (QueryCache.generateKey q params)
      (QueryCache.set q v params (some T) t0 c).entries = some ⟨v, t0, T⟩ := by
    simp [QueryCache.set, hT, assocGet_assocSet_self]
  refine ⟨?_, ?_, ?_⟩
  · intro h
    have hx : QueryCache.isExpired now (⟨v, t0, T⟩ : CacheEntry α) = false := by
      simp [QueryCache.isExpired]
      omega
    simp [QueryCache.get, hkey, hx]
  · intro h
    have hx : QueryCache.isExpired now (⟨v, t0, T⟩ : CacheEntry α) = true := by
      simp [QueryCache.isExpired]
      omega
    simp [QueryCache.get, hkey, hx]
  · intro hw
    cases hx : QueryCache.isExpired now e with
    | true => simp [QueryCache.get, he, hx] at hw
    | false =>
      have hw' : e.data = w := by simpa [QueryCache.get, he, hx] using hw
      have hnx : ¬ (now - e.timestamp > e.ttl) := by
        simpa [QueryCache.isExpired] using hx
      exact ⟨hw', by omega⟩

/-- C6 witness: concrete hit strictly inside the window. -/
theorem c6_ttl_window_witness :
    (QueryCache.get "SELECT 1" none 3
      (QueryCache.set "SELECT 1" (5:Nat) none (some 10) 0 (QueryCache.new Nat))).1 = some 5 :=
  (c6_ttl_window (QueryCache.new Nat)
    (QueryCache.set "SELECT 1" (5:Nat) none (some 10) 0 (QueryCache.new Nat))
    "SELECT 1" none 5 5 10 0 3 ⟨5, 0, 10⟩ (by norm_num)
    (by simp [QueryCache.set, assocGet_assocSet_self])).1 (by norm_num)

/-! ## Claim C7 — key derivation -/

/-- Immediate round-trip: `set(q, v, p)` then `get(q, p)` at the same
timestamp returns `v` whenever the default TTL is nonnegative. -/
theorem get_set_roundtrip {α : Type} (q : String) (params : Option (List String)) (v : α)
    (t0 : Int) (c : QueryCache α) (hd : 0 ≤ c.defaultTTL) :
    (QueryCache.get q params t0 (QueryCache.set q v params none t0 c)).1 = some v := by
  have hc1 : ∀ c1 : QueryCache α, 0 ≤ c1.defaultTTL →
      (QueryCache.get q params t0
        { c1 with entries :=
            assocSet (QueryCache.generateKey q params) ⟨v, t0, c1.defaultTTL⟩ c1.entries }).1 =
        some v := by
    intro c1 h1
    have hx : QueryCache.isExpired t0 (⟨v, t0, c1.defaultTTL⟩ : CacheEntry α) = false := by
      simp [QueryCache.isExpired]
      omega
    simp [QueryCache.get, assocGet_assocSet_self, hx]
  by_cases hcap : c.entries.length ≥ c.maxSize ∧
      (assocGet (QueryCache.generateKey q params) c.entries).isNone
  · have hs : QueryCache.set q v params none t0 c =
        { QueryCache.evictOldest t0 c with
          entries := assocSet (QueryCache.generateKey q params)
            ⟨v, t0, (QueryCache.evictOldest t0 c).defaultTTL⟩
            (QueryCache.evictOldest t0 c).entries } := by
      simp only [QueryCache.set]
      rw [if_pos hcap]
    rw [hs]
    exact hc1 _ (by rw [evictOldest_defaultTTL]; exact hd)
  · have hs : QueryCache.set q v params none t0 c =
        { c with
          entries := assocSet (QueryCache.generateKey q params)
            ⟨v, t0, c.defaultTTL⟩ c.entries } := by
      simp only [QueryCache.set]
      rw [if_neg hcap]
    rw [hs]
    exact hc1 _ hd

/-- C7 counterexample: the no-collision half of the claim fails.  The key
is derived from the bare concatenation `sql + JSON.stringify(params)`, so
the pair (query `SELECT 1`, params `["a"]`) and the *different* query
`SELECT 1["a"]` with no params share one derivation input and therefore
one key: a `get` for the latter returns the value cached for the former,
deterministically, not as an md5 collision. -/
theorem c7_counterexample_derivation_collision :
    ("SELECT 1" : String) ≠ "SELECT 1[\"a\"]" ∧
    (QueryCache.get "SELECT 1[\"a\"]" none 0
      (QueryCache.set "SELECT 1" (9:Nat) (some ["a"]) none 0 (QueryCache.new Nat))).1 = some 9 := by
  have hk : QueryCache.generateKey "SELECT 1[\"a\"]" none =
      QueryCache.generateKey "SELECT 1" (some ["a"]) :=
    congrArg md5Hex (by decide)
  have hent : (QueryCache.set "SELECT 1" (9:Nat) (some ["a"]) none 0 (QueryCache.new Nat)).entries =
      [(QueryCache.generateKey "SELECT 1" (some ["a"]), ⟨9, 0, 300000⟩)] :=
    set_empty_entries _ _ _ _ _ _ (by norm_num)
  refine ⟨by decide, ?_⟩
  simp [QueryCache.get, hent, hk, assocGet_cons_self, QueryCache.isExpired]

/-- C7 amended: the round-trip half holds (`set` then immediate `get`
returns the stored value when the default TTL is nonnegative), and keys
are a function of the derivation input alone: equal derivation inputs
always collide, and distinct derivation inputs can only collide through
an md5 collision. -/
theorem c7_roundtrip_and_derivation_keying {α : Type} (c : QueryCache α)
    (q q1 q2 : String) (params p1 p2 : Option (List String)) (v : α) (t0 : Int)
    (hd : 0 ≤ c.defaultTTL) :
    (QueryCache.get q params t0 (QueryCache.set q v params none t0 c)).1 = some v ∧
    (QueryCache.derivationInput q1 p1 = QueryCache.derivationInput q2 p2 →
      QueryCache.generateKey q1 p1 = QueryCache.generateKey q2 p2) :=
  ⟨get_set_roundtrip q params v t0 c hd, fun h => congrArg md5Hex h⟩

/-- C7 witness: concrete immediate round-trip. -/
theorem c7_roundtrip_and_derivation_keying_witness :
    (QueryCache.get "SELECT name FROM products" none 0
      (QueryCache.set "SELECT name FROM products" (3:Nat) none none 0
        (QueryCache.new Nat))).1 = some 3 :=
  (c7_roundtrip_and_derivation_keying (QueryCache.new Nat)
    "SELECT name FROM products" "a" "b" none none none 3 0 (by decide)).1

/-! ## Claim C8 — session token uniqueness -/

/-- A session store with one live session whose token is `abc`. -/
def sessions0 : List (String × String) := [("abc", "alice")]

/-- C8 counterexample: the claim fails on the code.  `authenticate` draws
`Math.random().toString(36).substring(7)` and records it with no
uniqueness check, so a draw equal to the live token `abc` is returned
as-is and silently overwrites that session's mapping. -/
theorem c8_counterexample_token_collision :
    (authenticate "abc" "admin" "admin123" defaultUsers sessions0).1 = some "abc" ∧
    "abc" ∈ sessions0.map Prod.fst := by
  exact ⟨by decide, by decide⟩

/-- C8 amended: a successful `authenticate` returns exactly the drawn
random string and records (token → username) unconditionally — with no
uniqueness guarantee among live sessions, a colliding draw overwrites
the previous session's mapping. -/
theorem c8_amended_token_recorded_unconditionally (sid u p : String)
    (users : List (String × User)) (sessions : List (String × String)) (user : User)
    (hu : assocGet u users = some user) (hp : user.password = p) :
    authenticate sid u p users sessions = (some sid, assocSet sid u sessions) := by
  simp [authenticate, hu, hp]

/-- C8 witness: the colliding concrete login. -/
theorem c8_amended_token_recorded_unconditionally_witness :
    authenticate "abc" "admin" "admin123" defaultUsers sessions0 =
      (some "abc", assocSet "abc" "admin" sessions0) :=
  c8_amended_token_recorded_unconditionally "abc" "admin" "admin123" defaultUsers sessions0
    ⟨"admin", "admin123", UserRole.ADMIN⟩ (by decide) (by decide)

/-! ## Claim C9 — non-enumerating authentication failures -/

/-- C9: an unknown username and a known username with a wrong password
produce the identical caller-visible outcome: `authenticate` returns
`null` with the session map untouched in both cases, and the `mysql_auth`
handler surfaces the same generic `Invalid username or password` error. -/
theorem c9_auth_failures_indistinguishable (users : List (String × User))
    (sessions : List (String × String)) (sid1 sid2 u1 p1 u2 p2 : String) (user : User)
    (h1 : assocGet u1 users = none) (h2 : assocGet u2 users = some user)
    (h3 : user.password ≠ p2) :
    authenticate sid1 u1 p1 users sessions = (none, sessions) ∧
    authenticate sid2 u2 p2 users sessions = (none, sessions) ∧
    mysqlAuthResponse (authenticate sid1 u1 p1 users sessions).1 =
      Except.error "Invalid username or password" ∧
    mysqlAuthResponse (authenticate sid2 u2 p2 users sessions).1 =
      Except.error "Invalid username or password" := by
  have e1 : authenticate sid1 u1 p1 users sessions = (none, sessions) := by
    simp [authenticate, h1]
  have e2 : authenticate sid2 u2 p2 users sessions = (none, sessions) := by
    simp [authenticate, h2, h3]
  refine ⟨e1, e2, ?_, ?_⟩
  · rw [e1]
    rfl
  · rw [e2]
    rfl


/-- C9 witness: unknown user vs wrong password against the default
registry. -/
theorem c9_auth_failures_indistinguishable_witness :
    authenticate "s1" "mallory" "pw" defaultUsers [] = (none, []) ∧
    authenticate "s2" "admin" "wrong" defaultUsers [] = (none, []) ∧
    mysqlAuthResponse (authenticate "s1" "mallory" "pw" defaultUsers []).1 =
      Except.error "Invalid username or password" ∧
    mysqlAuthResponse (authenticate "s2" "admin" "wrong" defaultUsers []).1 =
      Except.error "Invalid username or password" :=
  c9_auth_failures_indistinguishable defaultUsers [] "s1" "s2" "mallory" "pw" "admin" "wrong"
    ⟨"admin", "admin123", UserRole.ADMIN⟩ (by decide) (by decide) (by decide)

/-! ## Claim C10 — raw queries never invalidate the cache -/

/-- C10: a raw `mysql_query` whose statement is not cacheable (every
mutating statement, since `shouldCache` only accepts
select/show/describe/desc) leaves the cache exactly as it was, while the
structured insert/update/delete handlers are precisely the ones that
perform table-scoped invalidation. -/
theorem c10_raw_query_never_invalidates {α : Type} (q : String)
    (params : Option (List String)) (result : α) (now : Int) (c : QueryCache α)
    (t : String) (c2 : QueryCache α) (h : QueryCache.shouldCache q = false) :
    mysqlQueryCacheStep q params result now c = c ∧
    mysqlInsertCacheStep t c2 = QueryCache.invalidateTable t c2 ∧
    mysqlUpdateCacheStep t c2 = QueryCache.invalidateTable t c2 ∧
    mysqlDeleteCacheStep t c2 = QueryCache.invalidateTable t c2 :=
  ⟨by simp [mysqlQueryCacheStep, h], rfl, rfl, rfl⟩

/-- A cache holding a previously cached SELECT over table `t`. -/
def c10Cache : QueryCache Nat :=
  QueryCache.set "SELECT * FROM t" 1 none none 0 (QueryCache.new Nat)

/-- C10 witness: a raw `DELETE FROM t` leaves a cache holding a SELECT
over `t` untouched. -/
theorem c10_raw_query_never_invalidates_witness :
    mysqlQueryCacheStep "DELETE FROM t" none (0:Nat) 5 c10Cache = c10Cache ∧
    mysqlInsertCacheStep "t" c10Cache = QueryCache.invalidateTable "t" c10Cache ∧
    mysqlUpdateCacheStep "t" c10Cache = QueryCache.invalidateTable "t" c10Cache ∧
    mysqlDeleteCacheStep "t" c10Cache = QueryCache.invalidateTable "t" c10Cache :=
  c10_raw_query_never_invalidates "DELETE FROM t" none 0 5 c10Cache "t" c10Cache (by decide)

end MCPMySQL
